import Mathlib

/-!
Verification of the chess session coordinator in `src/app.js` (with the
duplicated server copy in `src/unnamed/part_000`).

The server keeps one `ChessGame` object holding the rules-engine position
(`chess`), the two seats (`players`), the two countdown values (`timers`) and
the scheduled interval handles (`timerIntervals`), and reacts to socket
events (`connection`, `move`, `offerDraw`, `acceptDraw`, `resign`,
`disconnect`), interval ticks, and the HTTP `/reset` route.

The chess rules engine (chess.js) is an external collaborator of the
repository; following the spec it is treated as an opaque capability and the
embedding is parameterised over an `Engine` structure providing `move`,
`turn`, the terminal-condition predicates and `fen`.  Concrete instances
(`toyEngine`, `deadEngine`) are used only to evaluate closed statements.

Socket ids are modelled as natural numbers; seconds as integers (the JS
counters are plain numbers that the code decrements without a lower bound).
-/

namespace Chess

inductive Color where
  | white
  | black
deriving DecidableEq, Repr

def Color.other : Color → Color
  | .white => .black
  | .black => .white

/-- The initial letter of a color name, as computed by `color[0]` in
`startTimer`. -/
def Color.initial : Color → String
  | .white => "w"
  | .black => "b"

/-- The `'White'` / `'Black'` label used in game-over messages. -/
def Color.label : Color → String
  | .white => "White"
  | .black => "Black"

/-- The inbound `move` payload `{from, to, promotion?}`. -/
structure MoveReq where
  fromSq : String
  toSq : String
  promotion : Option String
deriving DecidableEq, Repr

/-- The normalised move the server passes to the rules engine:
`{from: move.from, to: move.to, promotion: move.promotion || 'q'}`. -/
structure ServerMove where
  fromSq : String
  toSq : String
  promotion : String
deriving DecidableEq, Repr

def serverMoveOf (mv : MoveReq) : ServerMove :=
  { fromSq := mv.fromSq, toSq := mv.toSq, promotion := mv.promotion.getD "q" }

/-- The opaque rules-engine collaborator (chess.js), per the spec an external
capability: `apply(move) -> MoveResult | null`, side to move, terminal
predicates, serialization. `move` returns the successor position on a legal
move and `none` on a rejected one (in which case the engine position is
unchanged). -/
structure Engine (Pos : Type) where
  init : Pos
  move : Pos → ServerMove → Option Pos
  turn : Pos → Color
  in_checkmate : Pos → Bool
  in_stalemate : Pos → Bool
  in_draw : Pos → Bool
  fen : Pos → String

/-- `game.players`: seat → socket id or null. -/
structure Players where
  white : Option Nat
  black : Option Nat
deriving DecidableEq, Repr

def Players.get (p : Players) : Color → Option Nat
  | .white => p.white
  | .black => p.black

/-- `game.timers`: remaining whole seconds per side. -/
structure Timers where
  white : Int
  black : Int
deriving DecidableEq, Repr

def Timers.get (t : Timers) : Color → Int
  | .white => t.white
  | .black => t.black

def Timers.dec (t : Timers) : Color → Timers
  | .white => { t with white := t.white - 1 }
  | .black => { t with black := t.black - 1 }

/-- `game.timerIntervals`: which sides currently have a scheduled interval
(the JS object keyed by `'white'` / `'black'`). -/
structure Intervals where
  white : Bool
  black : Bool
deriving DecidableEq, Repr

def Intervals.get (i : Intervals) : Color → Bool
  | .white => i.white
  | .black => i.black

def Intervals.set (i : Intervals) : Color → Intervals
  | .white => { i with white := true }
  | .black => { i with black := true }

def Intervals.none : Intervals := { white := false, black := false }

/-- The `ChessGame` instance state. -/
structure GameState (Pos : Type) where
  chess : Pos
  players : Players
  timers : Timers
  timerIntervals : Intervals
deriving DecidableEq

/-- The constructor `new ChessGame()`. -/
def initState {Pos : Type} (E : Engine Pos) : GameState Pos :=
  { chess := E.init
    players := { white := none, black := none }
    timers := { white := 600, black := 600 }
    timerIntervals := Intervals.none }

/-- Outbound socket messages.  `io.emit` broadcasts carry no socket id;
unicasts (`socket.emit`) carry the recipient; `drawOffered` is
`socket.broadcast.emit` (everyone except the requester). -/
inductive Msg where
  | playerRole (sid : Nat) (role : String)
  | spectatorRole (sid : Nat)
  | gameStateMsg (sid : Nat) (fen : String) (timers : Timers)
  | timerUpdate (timers : Timers)
  | timeUp (side : String)
  | moveMsg (mv : ServerMove) (fen : String) (timers : Timers)
  | invalidMove (sid : Nat) (reason : String)
  | gameOver (message : String)
  | drawOffered (exceptSid : Nat)
  | playerDisconnected (side : String)
  | resetMsg (fen : String) (timers : Timers)
deriving DecidableEq, Repr

/-- Whether a message is an `io.emit` broadcast to all connections. -/
def Msg.isBroadcast : Msg → Bool
  | .timerUpdate _ => true
  | .timeUp _ => true
  | .moveMsg _ _ _ => true
  | .gameOver _ => true
  | .playerDisconnected _ => true
  | .resetMsg _ _ => true
  | _ => false

def Msg.isGameOver : Msg → Bool
  | .gameOver _ => true
  | _ => false

variable {Pos : Type}

/-- `stopTimers()`: clears every scheduled interval. -/
def stopTimers (s : GameState Pos) : GameState Pos :=
  { s with timerIntervals := Intervals.none }

/-- `startTimer(color)`: stops all timers, then schedules an interval for
`color`.  (The interval body itself runs later, on ticks.) -/
def startTimer (s : GameState Pos) (color : Color) : GameState Pos :=
  let s := stopTimers s
  { s with timerIntervals := s.timerIntervals.set color }

/-- The body of the interval scheduled by `startTimer(color)`:
decrement `timers[color]`, broadcast `timerUpdate`, and on reaching `<= 0`
stop all timers and broadcast `timeUp(color[0])`. -/
def tickHandler (s : GameState Pos) (color : Color) : GameState Pos × List Msg :=
  let t := s.timers.dec color
  let s := { s with timers := t }
  if t.get color ≤ 0 then
    (stopTimers s, [Msg.timerUpdate t, Msg.timeUp color.initial])
  else
    (s, [Msg.timerUpdate t])

/-- `reset()` in `src/app.js`: fresh position, fresh clocks, stop timers,
vacate both seats. -/
def reset (E : Engine Pos) (s : GameState Pos) : GameState Pos :=
  let s := { s with chess := E.init, timers := { white := 600, black := 600 } }
  let s := stopTimers s
  { s with players := { white := none, black := none } }

/-- `reset()` in the server copy of `src/unnamed/part_000`: fresh position,
fresh clocks, stop timers — the seats are left as they are. -/
def reset_p0 (E : Engine Pos) (s : GameState Pos) : GameState Pos :=
  let s := { s with chess := E.init, timers := { white := 600, black := 600 } }
  stopTimers s

/-- The `io.on('connection')` handler: first connection claims white, second
claims black (starting white's timer), later ones become spectators; the new
connection is always sent its role and the current state. -/
def onConnection (E : Engine Pos) (s : GameState Pos) (sid : Nat) :
    GameState Pos × List Msg :=
  let (s, roleMsgs) :=
    if s.players.white = Option.none then
      ({ s with players := { s.players with white := some sid } },
       [Msg.playerRole sid "w"])
    else if s.players.black = Option.none then
      let s := { s with players := { s.players with black := some sid } }
      (startTimer s Color.white, [Msg.playerRole sid "b"])
    else
      (s, [Msg.spectatorRole sid])
  (s, roleMsgs ++ [Msg.gameStateMsg sid (E.fen s.chess) s.timers])

/-- The `socket.on('move')` handler. -/
def onMove (E : Engine Pos) (s : GameState Pos) (sid : Nat) (mv : MoveReq) :
    GameState Pos × List Msg :=
  let turnColor := E.turn s.chess
  let allowedSocketId := s.players.get turnColor
  if some sid ≠ allowedSocketId then
    (s, [])
  else
    let sm := serverMoveOf mv
    match E.move s.chess sm with
    | Option.none => (s, [Msg.invalidMove sid "Invalid move"])
    | some pos =>
      let s := { s with chess := pos }
      let s := stopTimers s
      let nextColor := turnColor.other
      let s := startTimer s nextColor
      let msgs := [Msg.moveMsg sm (E.fen s.chess) s.timers]
      if E.in_checkmate s.chess then
        (stopTimers s,
         msgs ++ [Msg.gameOver ("Checkmate! " ++ turnColor.label ++ " wins")])
      else if E.in_stalemate s.chess then
        (stopTimers s, msgs ++ [Msg.gameOver "Stalemate!"])
      else if E.in_draw s.chess then
        (stopTimers s, msgs ++ [Msg.gameOver "Draw!"])
      else
        (s, msgs)

/-- The `socket.on('offerDraw')` handler. -/
def onOfferDraw (s : GameState Pos) (sid : Nat) : GameState Pos × List Msg :=
  (s, [Msg.drawOffered sid])

/-- The `socket.on('acceptDraw')` handler. -/
def onAcceptDraw (s : GameState Pos) : GameState Pos × List Msg :=
  (stopTimers s, [Msg.gameOver "Draw by agreement"])

/-- The `socket.on('resign')` handler. -/
def onResign (s : GameState Pos) (sid : Nat) : GameState Pos × List Msg :=
  let s := stopTimers s
  let resigningColor :=
    if some sid = s.players.white then "White"
    else if some sid = s.players.black then "Black"
    else "Player"
  let winner :=
    if resigningColor = "White" then "Black"
    else if resigningColor = "Black" then "White"
    else "Opponent"
  (s, [Msg.gameOver (resigningColor ++ " resigns. " ++ winner ++ " wins!")])

/-- The `socket.on('disconnect')` handler. -/
def onDisconnect (s : GameState Pos) (sid : Nat) : GameState Pos × List Msg :=
  if s.players.white = some sid then
    let s := { s with players := { s.players with white := Option.none } }
    (stopTimers s, [Msg.playerDisconnected "white"])
  else if s.players.black = some sid then
    let s := { s with players := { s.players with black := Option.none } }
    (stopTimers s, [Msg.playerDisconnected "black"])
  else
    (s, [])

/-- The HTTP `GET /reset` route: `game.reset()` then broadcast the fresh
state. -/
def onResetRoute (E : Engine Pos) (s : GameState Pos) : GameState Pos × List Msg :=
  let s := reset E s
  (s, [Msg.resetMsg (E.fen s.chess) s.timers])

/-- One serialized inbound event (spec §5: all events, including interval
ticks, run to completion on a single logical sequence). -/
inductive Event where
  | connect (sid : Nat)
  | move (sid : Nat) (mv : MoveReq)
  | offerDraw (sid : Nat)
  | acceptDraw (sid : Nat)
  | resign (sid : Nat)
  | disconnect (sid : Nat)
  | tick
  | resetRoute
deriving DecidableEq, Repr

/-- Dispatch one event.  A `tick` fires the interval body of every side whose
interval is currently scheduled (the code keeps at most one). -/
def step (E : Engine Pos) (s : GameState Pos) : Event → GameState Pos × List Msg
  | .connect sid => onConnection E s sid
  | .move sid mv => onMove E s sid mv
  | .offerDraw sid => onOfferDraw s sid
  | .acceptDraw _ => onAcceptDraw s
  | .resign sid => onResign s sid
  | .disconnect sid => onDisconnect s sid
  | .tick =>
    let (s1, m1) :=
      if s.timerIntervals.white then tickHandler s Color.white else (s, [])
    let (s2, m2) :=
      if s1.timerIntervals.black then tickHandler s1 Color.black else (s1, [])
    (s2, m1 ++ m2)
  | .resetRoute => onResetRoute E s

/-- Run a list of events, keeping only the final state. -/
def run (E : Engine Pos) (s : GameState Pos) : List Event → GameState Pos
  | [] => s
  | ev :: evs => run E (step E s ev).1 evs

/-- Run a list of events, accumulating every emitted message in order. -/
def runMsgs (E : Engine Pos) (s : GameState Pos) :
    List Event → GameState Pos × List Msg
  | [] => (s, [])
  | ev :: evs =>
    let (s1, m1) := step E s ev
    let (s2, m2) := runMsgs E s1 evs
    (s2, m1 ++ m2)

/-- A toy instance of the opaque rules engine, for evaluating closed
statements: positions count the moves played, every move is legal, the sides
alternate starting from white, and no position is terminal. -/
def toyEngine : Engine Nat :=
  { init := 0
    move := fun p _ => some (p + 1)
    turn := fun p => if p % 2 = 0 then Color.white else Color.black
    in_checkmate := fun _ => false
    in_stalemate := fun _ => false
    in_draw := fun _ => false
    fen := fun _ => "" }

/-- An engine instance whose position is terminal: every move is rejected
(as chess.js does in checkmate, stalemate or drawn positions). -/
def deadEngine : Engine Nat :=
  { init := 0
    move := fun _ _ => Option.none
    turn := fun _ => Color.white
    in_checkmate := fun _ => true
    in_stalemate := fun _ => false
    in_draw := fun _ => false
    fen := fun _ => "" }

/-- The concrete move payload `e2 → e4` (no promotion field supplied, so the
server defaults it to queen). -/
def e2e4 : MoveReq := { fromSq := "e2", toSq := "e4", promotion := Option.none }

/-- A state with both seats taken and timers stopped, used with `deadEngine`
(whose position rejects every move, as chess.js does after checkmate,
stalemate or an automatic draw). -/
def sDead : GameState Nat :=
  { chess := 0
    players := { white := some 1, black := some 2 }
    timers := { white := 600, black := 600 }
    timerIntervals := Intervals.none }

/-- A mid-game state with both seats taken, used to compare the two `reset`
copies. -/
def seatedState : GameState Nat :=
  { chess := 5
    players := { white := some 1, black := some 2 }
    timers := { white := 300, black := 400 }
    timerIntervals := { white := false, black := true } }

/-- Event trace that lets white's clock expire and then restarts white's
countdown with 0 seconds left: both players connect, 600 ticks run white
down to 0 (expiry), white plays a legal move, black plays a legal move
(which calls `startTimer('white')` with white's remaining time still 0), and
one more tick fires. -/
def c3trace : List Event :=
  [Event.connect 1, Event.connect 2] ++ List.replicate 599 Event.tick ++
    [Event.tick, Event.move 1 e2e4, Event.move 2 e2e4, Event.tick]

/-- At most one side's interval is scheduled (spec: at most one side's
countdown is decrementing at any instant). -/
def atMostOneRunning (i : Intervals) : Prop := (i.white && i.black) = false

/-- The coordinator is in the `Waiting` state: fewer than two seats are
filled. -/
def isWaiting (s : GameState Pos) : Prop :=
  s.players.white = Option.none ∨ s.players.black = Option.none

/-! Helper lemmas about event traces. -/

theorem run_append (E : Engine Pos) (s : GameState Pos) (a b : List Event) :
    run E s (a ++ b) = run E (run E s a) b := by
  induction a generalizing s with
  | nil => rfl
  | cons ev evs ih => simp [run, ih]

/-- While only white's interval is scheduled and more than `n` seconds
remain, `n` ticks decrement white's clock by `n` and keep the interval. -/
theorem run_ticks (E : Engine Pos) (n : Nat) (c : Pos) (p : Players) (w b : Int)
    (hn : (n : Int) < w) :
    run E ⟨c, p, ⟨w, b⟩, ⟨true, false⟩⟩ (List.replicate n Event.tick) =
      ⟨c, p, ⟨w - n, b⟩, ⟨true, false⟩⟩ := by
  induction n generalizing w with
  | zero => simp [List.replicate, run]
  | succ n ih =>
    have hpos : ¬ (w - 1 ≤ 0) := by push_cast at hn; omega
    have hstep : (step E (⟨c, p, ⟨w, b⟩, ⟨true, false⟩⟩ : GameState Pos) Event.tick).1 =
        ⟨c, p, ⟨w - 1, b⟩, ⟨true, false⟩⟩ := by
      simp [step, tickHandler, Timers.dec, Timers.get, hpos]
    rw [List.replicate_succ]
    rw [show run E (⟨c, p, ⟨w, b⟩, ⟨true, false⟩⟩ : GameState Pos)
          (Event.tick :: List.replicate n Event.tick)
        = run E (step E (⟨c, p, ⟨w, b⟩, ⟨true, false⟩⟩ : GameState Pos) Event.tick).1
            (List.replicate n Event.tick) from rfl]
    rw [hstep]
    rw [ih (w - 1) (by push_cast at hn ⊢; omega)]
    have harith : w - 1 - (n : Int) = w - ((n + 1 : Nat) : Int) := by push_cast; ring
    rw [harith]

/-- The first two connects from the fresh state seat both players and start
white's interval. -/
theorem run_connects :
    run toyEngine (initState toyEngine) [Event.connect 1, Event.connect 2] =
      ⟨0, ⟨some 1, some 2⟩, ⟨600, 600⟩, ⟨true, false⟩⟩ := by decide

/-- After the two connects and 599 ticks, white's clock shows 1 second and
white's interval is still scheduled. -/
theorem run_to_one_second :
    run toyEngine (initState toyEngine)
      ([Event.connect 1, Event.connect 2] ++ List.replicate 599 Event.tick) =
      ⟨0, ⟨some 1, some 2⟩, ⟨1, 600⟩, ⟨true, false⟩⟩ := by
  rw [run_append, run_connects,
    run_ticks toyEngine 599 0 ⟨some 1, some 2⟩ 600 600 (by norm_num)]
  decide

/-- Every event handler keeps at most one interval scheduled. -/
theorem atMostOne_step (E : Engine Pos) (s : GameState Pos) (ev : Event)
    (h : atMostOneRunning s.timerIntervals) :
    atMostOneRunning (step E s ev).1.timerIntervals := by
  cases ev with
  | connect sid =>
    by_cases hw : s.players.white = Option.none
    · simpa [step, onConnection, hw] using h
    · by_cases hb : s.players.black = Option.none
      · simp [step, onConnection, hw, hb, startTimer, stopTimers, Intervals.set,
          Intervals.none, atMostOneRunning]
      · simpa [step, onConnection, hw, hb] using h
  | move sid mv =>
    by_cases hc : some sid ≠ s.players.get (E.turn s.chess)
    · simpa [step, onMove, hc] using h
    · cases hE : E.move s.chess (serverMoveOf mv) with
      | none => simpa [step, onMove, hc, hE] using h
      | some p =>
        simp only [step, onMove, hc, hE, if_false]
        split_ifs <;> cases ht : E.turn s.chess <;>
          simp [startTimer, stopTimers, Intervals.set, Intervals.none, atMostOneRunning,
            Color.other, ht]
  | offerDraw sid => simpa [step, onOfferDraw] using h
  | acceptDraw sid =>
    simp [step, onAcceptDraw, stopTimers, Intervals.none, atMostOneRunning]
  | resign sid =>
    simp [step, onResign, stopTimers, Intervals.none, atMostOneRunning]
  | disconnect sid =>
    by_cases hw : s.players.white = some sid
    · simp [step, onDisconnect, hw, stopTimers, Intervals.none, atMostOneRunning]
    · by_cases hb : s.players.black = some sid
      · simp [step, onDisconnect, hw, hb, stopTimers, Intervals.none, atMostOneRunning]
      · simpa [step, onDisconnect, hw, hb] using h
  | tick =>
    rcases hsi : s.timerIntervals with ⟨iw, ib⟩
    rw [hsi] at h
    cases iw <;> cases ib <;>
      simp_all [step, tickHandler, hsi, Timers.dec, Timers.get, stopTimers,
        Intervals.none, atMostOneRunning] <;> split_ifs <;> simp_all
  | resetRoute =>
    simp [step, onResetRoute, reset, stopTimers, Intervals.none, atMostOneRunning]

/-- Runs starting from a state with at most one scheduled interval keep at
most one scheduled interval. -/
theorem atMostOne_run (E : Engine Pos) (s : GameState Pos)
    (h : atMostOneRunning s.timerIntervals) (es : List Event) :
    atMostOneRunning (run E s es).timerIntervals := by
  induction es generalizing s with
  | nil => exact h
  | cons ev evs ih => exact ih _ (atMostOne_step E s ev h)

/-! Claim theorems. -/

/-- C1 (counterexample): after a draw by agreement was recorded (a `gameOver`
broadcast was emitted and no reset followed), a further move event from the
side to move is not a no-op: it changes the game state and emits a
broadcast. -/
theorem c1_counterexample :
    Msg.gameOver "Draw by agreement" ∈ (runMsgs toyEngine (initState toyEngine)
        [Event.connect 1, Event.connect 2, Event.acceptDraw 1]).2 ∧
    (step toyEngine (run toyEngine (initState toyEngine)
        [Event.connect 1, Event.connect 2, Event.acceptDraw 1]) (Event.move 1 e2e4)).1 ≠
      run toyEngine (initState toyEngine)
        [Event.connect 1, Event.connect 2, Event.acceptDraw 1] ∧
    (step toyEngine (run toyEngine (initState toyEngine)
        [Event.connect 1, Event.connect 2, Event.acceptDraw 1]) (Event.move 1 e2e4)).2.filter
      Msg.isBroadcast ≠ [] := by decide

/-- C1 (amended): only when the rules engine itself is in a terminal position
(it rejects every move, as after checkmate, stalemate or an automatic draw)
is every subsequent move event state-preserving and broadcast-free; the
requester may still receive a private `invalidMove` unicast.  (After draw by
agreement, resignation or timeout the code keeps accepting moves, as the
counterexample shows.) -/
theorem c1_moves_after_engine_terminal (E : Engine Pos) (s : GameState Pos)
    (sid : Nat) (mv : MoveReq)
    (hterm : ∀ m : ServerMove, E.move s.chess m = Option.none) :
    (step E s (Event.move sid mv)).1 = s ∧
    (step E s (Event.move sid mv)).2.filter Msg.isBroadcast = [] := by
  by_cases hc : s.players.get (E.turn s.chess) = some sid
  · simp [step, onMove, hc, hterm, Msg.isBroadcast]
  · have h' : some sid ≠ s.players.get (E.turn s.chess) := fun he => hc he.symm
    simp [step, onMove, h']

/-- C1 (witness): in a terminal engine position with both seats taken, the
side-to-move's move event leaves the state unchanged and broadcasts
nothing. -/
theorem c1_witness :
    (step deadEngine sDead (Event.move 1 e2e4)).1 = sDead ∧
    (step deadEngine sDead (Event.move 1 e2e4)).2.filter Msg.isBroadcast = [] :=
  c1_moves_after_engine_terminal deadEngine sDead 1 e2e4 (fun _ => rfl)

/-- C2 (counterexample): driving white's clock from the fresh state to its
expiry tick, the server emits exactly `timerUpdate` then `timeUp "w"` — no
`gameOver` announcement accompanies the timeout. -/
theorem c2_counterexample :
    (step toyEngine (run toyEngine (initState toyEngine)
        ([Event.connect 1, Event.connect 2] ++ List.replicate 599 Event.tick)) Event.tick).2
      = [Msg.timerUpdate ⟨0, 600⟩, Msg.timeUp "w"] ∧
    ((step toyEngine (run toyEngine (initState toyEngine)
        ([Event.connect 1, Event.connect 2] ++ List.replicate 599 Event.tick)) Event.tick).2.filter
      Msg.isGameOver) = [] := by
  rw [run_to_one_second]
  exact ⟨rfl, rfl⟩

/-- C2 (amended): when the side whose interval is scheduled has at most one
second left, the next tick decrements its clock to `≤ 0`, clears every
interval (so the pair of broadcasts fires exactly once for this expiry), and
emits `timerUpdate` followed by `timeUp` naming the expired side by its
initial letter; no `gameOver` broadcast is emitted. -/
theorem c2_expiry_broadcasts (E : Engine Pos) (s : GameState Pos) (color : Color)
    (hi : s.timerIntervals = Intervals.none.set color)
    (hw : s.timers.get color ≤ 1) :
    step E s Event.tick =
      (stopTimers { s with timers := s.timers.dec color },
       [Msg.timerUpdate (s.timers.dec color), Msg.timeUp color.initial]) := by
  cases color <;>
    simp_all [step, tickHandler, Intervals.set, Intervals.none, Timers.dec, Timers.get,
      stopTimers, Color.initial]

/-- C2 (witness): a concrete expiry tick for white at 1 second. -/
theorem c2_witness :
    step toyEngine ⟨0, ⟨some 1, some 2⟩, ⟨1, 600⟩, ⟨true, false⟩⟩ Event.tick =
      (⟨0, ⟨some 1, some 2⟩, ⟨0, 600⟩, ⟨false, false⟩⟩,
       [Msg.timerUpdate ⟨0, 600⟩, Msg.timeUp "w"]) :=
  c2_expiry_broadcasts toyEngine ⟨0, ⟨some 1, some 2⟩, ⟨1, 600⟩, ⟨true, false⟩⟩ Color.white
    rfl (by decide)

/-- C3 (code bug): `startTimer` schedules a decrement even for a side whose
remaining time is already 0, so a reachable trace drives white's remaining
time to -1: white's clock expires, white then moves, black moves (restarting
white's interval at 0 remaining), and the next tick decrements white below
zero. -/
theorem c3_negative_clock :
    (run toyEngine (initState toyEngine) c3trace).timers.white = -1 := by
  rw [c3trace, run_append, run_to_one_second]
  decide

/-- C4 (counterexample): in the `Waiting` state (both seats empty — fewer
than two seats filled), `acceptDraw` is not a no-op: it broadcasts the
draw-by-agreement `gameOver` announcement. -/
theorem c4_counterexample :
    (initState toyEngine).players.white = Option.none ∧
    (initState toyEngine).players.black = Option.none ∧
    (step toyEngine (initState toyEngine) (Event.acceptDraw 7)).2 =
      [Msg.gameOver "Draw by agreement"] := by decide

/-- C4 (amended): `acceptDraw` from any connection and in any state
unconditionally stops all countdowns and broadcasts the draw-by-agreement
`gameOver` announcement; the code never checks whether a game is active. -/
theorem c4_acceptDraw_unconditional (E : Engine Pos) (s : GameState Pos) (sid : Nat) :
    step E s (Event.acceptDraw sid) =
      (stopTimers s, [Msg.gameOver "Draw by agreement"]) := rfl

/-- C5: a move request from a connection that does not occupy the seat of
the side to move leaves the whole state unchanged and emits no message at
all — neither a broadcast nor a notification to the requester. -/
theorem c5_unauthorized_move_silent (E : Engine Pos) (s : GameState Pos)
    (sid : Nat) (mv : MoveReq)
    (h : s.players.get (E.turn s.chess) ≠ some sid) :
    step E s (Event.move sid mv) = (s, []) := by
  have h' : some sid ≠ s.players.get (E.turn s.chess) := fun he => h he.symm
  simp [step, onMove, h']

/-- C5 (witness): a move by socket 5 in the fresh state (no seats taken) is
silently dropped. -/
theorem c5_witness :
    step toyEngine (initState toyEngine) (Event.move 5 e2e4) =
      (initState toyEngine, []) :=
  c5_unauthorized_move_silent toyEngine (initState toyEngine) 5 e2e4 (by decide)

/-- C6: a move request from the authorized side-to-move connection that the
rules engine rejects leaves the state (position, clocks, intervals, seats)
unchanged and emits exactly one message: a private `invalidMove` unicast to
the requester (which is not a broadcast). -/
theorem c6_illegal_move_private_reject (E : Engine Pos) (s : GameState Pos)
    (sid : Nat) (mv : MoveReq)
    (hauth : s.players.get (E.turn s.chess) = some sid)
    (hrej : E.move s.chess (serverMoveOf mv) = Option.none) :
    step E s (Event.move sid mv) = (s, [Msg.invalidMove sid "Invalid move"]) := by
  simp [step, onMove, hauth, hrej]

/-- C6 (witness): an authorized but engine-rejected move yields exactly the
private `invalidMove` notification. -/
theorem c6_witness :
    step deadEngine sDead (Event.move 1 e2e4) =
      (sDead, [Msg.invalidMove 1 "Invalid move"]) :=
  c6_illegal_move_private_reject deadEngine sDead 1 e2e4 rfl rfl

/-- C7: after an accepted legal move whose resulting position is not
terminal, exactly the mover's opponent's interval is scheduled (the active,
decrementing side is the opponent of the side that just moved); and along
every event trace from the fresh state at most one side's countdown is
scheduled at any instant. -/
theorem c7_clock_switches_to_opponent (E : Engine Pos) (s : GameState Pos)
    (sid : Nat) (mv : MoveReq) (p : Pos)
    (hauth : s.players.get (E.turn s.chess) = some sid)
    (hmv : E.move s.chess (serverMoveOf mv) = some p)
    (hcm : E.in_checkmate p = false) (hsm : E.in_stalemate p = false)
    (hdr : E.in_draw p = false) :
    (step E s (Event.move sid mv)).1.timerIntervals =
      Intervals.none.set (E.turn s.chess).other ∧
    ∀ es : List Event, atMostOneRunning (run E (initState E) es).timerIntervals := by
  constructor
  · simp [step, onMove, hauth, hmv, hcm, hsm, hdr, startTimer, stopTimers]
  · exact fun es => atMostOne_run E (initState E) rfl es

/-- C7 (witness): white (socket 1) moves from the both-seated state, after
which exactly black's interval is scheduled; and a concrete trace keeps at
most one interval scheduled. -/
theorem c7_witness :
    (step toyEngine ⟨0, ⟨some 1, some 2⟩, ⟨600, 600⟩, ⟨true, false⟩⟩
        (Event.move 1 e2e4)).1.timerIntervals = Intervals.none.set Color.black ∧
    atMostOneRunning (run toyEngine (initState toyEngine)
        [Event.connect 1, Event.connect 2, Event.tick]).timerIntervals :=
  ⟨(c7_clock_switches_to_opponent toyEngine ⟨0, ⟨some 1, some 2⟩, ⟨600, 600⟩, ⟨true, false⟩⟩
      1 e2e4 1 rfl rfl rfl rfl rfl).1,
   (c7_clock_switches_to_opponent toyEngine ⟨0, ⟨some 1, some 2⟩, ⟨600, 600⟩, ⟨true, false⟩⟩
      1 e2e4 1 rfl rfl rfl rfl rfl).2 [Event.connect 1, Event.connect 2, Event.tick]⟩

/-- C8: `reset()` from any prior state restores exactly the constructor
state — empty seats, 600/600 clocks, the engine's initial position, no
scheduled countdown — and the result is in the `Waiting` state. -/
theorem c8_reset_restores_initial (E : Engine Pos) (s : GameState Pos) :
    reset E s = initState E ∧ isWaiting (reset E s) := ⟨rfl, Or.inl rfl⟩

/-- C9 (counterexample): from a mid-game state with both seats occupied, the
two duplicated `reset` implementations produce different states (the
`src/unnamed/part_000` copy keeps the seats occupied). -/
theorem c9_counterexample :
    reset toyEngine seatedState ≠ reset_p0 toyEngine seatedState := by decide

/-- C9 (amended): the two `reset` copies agree on position, clocks and
intervals, and differ exactly on the seats — the `part_000` copy leaves
`players` as it was, so the two agree precisely on states whose seats are
already empty. -/
theorem c9_reset_copies_relationship (E : Engine Pos) (s : GameState Pos) :
    reset_p0 E s = { reset E s with players := s.players } := rfl

/-- C10: a disconnect of a connection occupying neither seat is a complete
no-op: seats, clocks, intervals and position are unchanged and no message of
any kind is emitted. -/
theorem c10_spectator_disconnect_noop (E : Engine Pos) (s : GameState Pos) (sid : Nat)
    (hw : s.players.white ≠ some sid) (hb : s.players.black ≠ some sid) :
    step E s (Event.disconnect sid) = (s, []) := by
  simp [step, onDisconnect, hw, hb]

/-- C10 (witness): socket 3 disconnecting from the fresh state (it holds no
seat) changes nothing and emits nothing. -/
theorem c10_witness :
    step toyEngine (initState toyEngine) (Event.disconnect 3) =
      (initState toyEngine, []) :=
  c10_spectator_disconnect_noop toyEngine (initState toyEngine) 3 (by decide) (by decide)

end Chess
